import Mathlib

/-!
Verification of the kernel-runtime subsystem of the `repl` crate
(`src/crates/repl/src/runtimes.rs` and `src/crates/repl/src/runtime_panel.rs`)
against its natural-language specification.

The Rust code is shallowly embedded: pure logic becomes Lean functions,
the concurrent routing tasks become an explicit small-step relation, the
filesystem and the OS (ports, process spawn, sockets, the random key) become
explicit state and oracle parameters.  External library types
(`runtimelib`, `uuid`, `smol`) are modelled only to the extent that the
embedded code inspects them.
-/

set_option linter.unusedVariables false

deriving instance DecidableEq for Except

namespace ZedRepl

/-- Execution state reported by the kernel on the iopub status channel
(`runtimelib::ExecutionState`; the two variants `runtimes.rs` matches on). -/
inductive ExecutionState
  | idle
  | busy
deriving DecidableEq, Repr

/-- The cached kernel-info reply (`runtimelib::KernelInfoReply`).  The crate
never inspects its fields, so it is modelled as an opaque payload. -/
structure KernelInfoReply where
  banner : String
deriving DecidableEq, Repr

/-- Message content (`runtimelib::JupyterMessageContent`): the three request
kinds that `routing_task` names explicitly, plus representatives of the
wildcard arm (any further kinds are covered by `other`). -/
inductive JupyterMessageContent
  | executeRequest (code : String)
  | debugRequest (payload : String)
  | interruptRequest
  | shutdownRequest (restart : Bool)
  | kernelInfoRequest
  | kernelInfoReply (info : KernelInfoReply)
  | status (state : ExecutionState)
  | other (kind : String) (payload : String)
deriving DecidableEq, Repr

/-- A Jupyter wire message (`runtimelib::JupyterMessage`): an envelope (the
header is abstracted to a message id) around a content payload. -/
structure JupyterMessage where
  msgId : Nat
  content : JupyterMessageContent
deriving DecidableEq, Repr

/-- The channel a request is routed to by `routing_task`. -/
inductive Channel
  | control
  | shell
deriving DecidableEq, Repr

/-- Classification performed by the `match message.content` inside
`routing_task` (`runtimes.rs` lines 214-223): debug, interrupt and shutdown
requests go to the control sub-queue, every other content goes to the shell
sub-queue. -/
def classify : JupyterMessageContent → Channel
  | .debugRequest _ => .control
  | .interruptRequest => .control
  | .shutdownRequest _ => .control
  | _ => .shell

/-- The request router (`routing_task`, `runtimes.rs` lines 211-227): drain
the submission queue in order, forwarding each message to the control or the
shell sub-queue according to `classify` of its content.  Result:
(control sub-queue, shell sub-queue), each in submission order. -/
def routingTask : List JupyterMessage → List JupyterMessage × List JupyterMessage
  | [] => ([], [])
  | m :: rest =>
    let qs := routingTask rest
    match classify m.content with
    | .control => (m :: qs.1, qs.2)
    | .shell => (qs.1, m :: qs.2)

/-- The kind of a content payload: the constructor with every payload erased
(for `other`, the protocol kind string is the kind). -/
inductive ContentKind
  | executeRequest
  | debugRequest
  | interruptRequest
  | shutdownRequest
  | kernelInfoRequest
  | kernelInfoReply
  | status
  | other (kind : String)
deriving DecidableEq, Repr

/-- The kind of a content value. -/
def kindOf : JupyterMessageContent → ContentKind
  | .executeRequest _ => .executeRequest
  | .debugRequest _ => .debugRequest
  | .interruptRequest => .interruptRequest
  | .shutdownRequest _ => .shutdownRequest
  | .kernelInfoRequest => .kernelInfoRequest
  | .kernelInfoReply _ => .kernelInfoReply
  | .status _ => .status
  | .other k _ => .other k

/-- The routing rule as the spec words it, as a function of the content kind
alone: the debug, interrupt and shutdown kinds go to control, every other
kind goes to shell. -/
def specClassify : ContentKind → Channel
  | .debugRequest => .control
  | .interruptRequest => .control
  | .shutdownRequest => .control
  | _ => .shell

/-- A running kernel's record (`struct RunningKernel` in `runtimes.rs`): the
child process handle, the connection file path kept for cleanup, the current
execution status and the cached kernel-info reply.  The four task handles and
the request sender are opaque to every claim and omitted. -/
structure RunningKernel where
  processId : Nat
  connectionPath : String
  executionState : ExecutionState
  kernelInfo : Option KernelInfoReply
deriving DecidableEq, Repr

/-- Kernel lifecycle state (`enum Kernel` in `runtimes.rs`).  The starting
variant's shared task handle is opaque, modelled by a number. -/
inductive Kernel
  | runningKernel (k : RunningKernel)
  | startingKernel (task : Nat)
  | erroredLaunch (msg : String)
  | shuttingDown
  | shutdown
deriving DecidableEq, Repr

/-- `Kernel::set_execution_state` (`runtimes.rs` lines 98-105): overwrite the
execution sub-status when the kernel is running; the catch-all arm leaves
every other state unchanged. -/
def Kernel.setExecutionState : Kernel → ExecutionState → Kernel
  | .runningKernel k, status => .runningKernel { k with executionState := status }
  | k, _ => k

/-- `Kernel::set_kernel_info` (`runtimes.rs` lines 107-114): cache the
kernel-info reply when the kernel is running; the catch-all arm leaves every
other state unchanged. -/
def Kernel.setKernelInfo : Kernel → KernelInfoReply → Kernel
  | .runningKernel k, info => .runningKernel { k with kernelInfo := some info }
  | k, _ => k

/-- The placeholder token substituted with the connection-descriptor path
(`"{connection_file}"` in `runtimes.rs`). -/
def connectionFilePlaceholder : String := "{connection_file}"

/-- A parsed `kernel.json` (`runtimelib::JupyterKernelspec`), with the fields
this crate reads: the argv template, display name, language identifier and
optional environment mapping. -/
structure JupyterKernelspec where
  argv : List String
  display_name : String
  language : String
  env : Option (List (String × String))
deriving DecidableEq, Repr

/-- A discovered kernel specification (`struct RuntimeSpecification`):
directory name, directory path (as components) and the parsed kernelspec. -/
structure RuntimeSpecification where
  name : String
  path : List String
  kernelspec : JupyterKernelspec
deriving DecidableEq, Repr

/-- A built but not yet spawned OS command (`smol::process::Command`):
program, arguments and the environment entries applied on top of the
inherited environment. -/
structure CommandSpec where
  program : String
  args : List String
  env : List (String × String)
deriving DecidableEq, Repr

/-- `RuntimeSpecification::command` (`runtimes.rs` lines 32-58): validate the
argv (non-empty, at least 2 tokens, placeholder present somewhere), then build
the command from `argv[0]`, substituting the connection path for every
placeholder occurrence among `argv[1..]`, and apply the env mapping. -/
def RuntimeSpecification.command (self : RuntimeSpecification) (connectionPath : String) :
    Except String CommandSpec :=
  let argv := self.kernelspec.argv
  if argv.isEmpty then
    .error ("Empty argv in kernelspec " ++ self.name)
  else if argv.length < 2 then
    .error ("Invalid argv in kernelspec " ++ self.name)
  else if argv.any (fun arg => arg == connectionFilePlaceholder) then
    .ok
      { program := argv.headI
        args := argv.tail.map fun arg =>
          if arg == connectionFilePlaceholder then connectionPath else arg
        env := self.kernelspec.env.getD [] }
  else
    .error ("Missing \x27connection_file\x27 in argv in kernelspec " ++ self.name)

/-- The ports currently held open by probe listeners of one allocation
(the OS-visible footprint of `peek_ports`). -/
structure OsPorts where
  bound : List Nat
deriving DecidableEq, Repr

/-- The `for i in 0..5` loop of `peek_ports` (`runtimes.rs` lines 63-73).
`binds i` is the OS answer to the i-th `TcpListener::bind` call: the port the
fresh listener got, or a bind error, which aborts the whole allocation via
`?`.  A successful bind adds the port to the open set; because the listener
goes out of scope at the end of the loop body, the port is released again
before the next bind (`(p :: bound).erase p`). -/
def peekPortsGo (binds : Nat → Except String Nat) :
    Nat → Nat → OsPorts → List Nat → Except String (List Nat) × OsPorts
  | 0, _, os, acc => (.ok acc.reverse, os)
  | n + 1, i, os, acc =>
    match binds i with
    | .error e => (.error e, os)
    | .ok p => peekPortsGo binds n (i + 1) { bound := (p :: os.bound).erase p } (p :: acc)

/-- `peek_ports`: run 5 probe binds starting from no open listener. -/
def peekPorts (binds : Nat → Except String Nat) : Except String (List Nat) × OsPorts :=
  peekPortsGo binds 5 0 { bound := [] } []

/-- A Jupyter connection descriptor (`runtimelib::ConnectionInfo`) with
exactly the wire fields serialized into the connection file. -/
structure ConnectionInfo where
  transport : String
  ip : String
  stdin_port : Nat
  control_port : Nat
  hb_port : Nat
  shell_port : Nat
  iopub_port : Nat
  signature_scheme : String
  key : String
  kernel_name : Option String
deriving DecidableEq, Repr

/-- The world state a launch interacts with: the persisted descriptor files
(path to descriptor value; the `serde_json` string serialization is injective
for this record and elided) and the number of child processes spawned so
far. -/
structure LaunchWorld where
  files : List (String × ConnectionInfo)
  spawned : Nat
deriving DecidableEq, Repr

/-- `Fs::atomic_write`: place (or replace) the file at `path`. -/
def atomicWrite (path : String) (info : ConnectionInfo) (w : LaunchWorld) : LaunchWorld :=
  { w with files := (path, info) :: w.files.filter fun pc => pc.1 != path }

/-- Content of the file at `path`, if present. -/
def lookupFile (w : LaunchWorld) (path : String) : Option ConnectionInfo :=
  (w.files.find? fun pc => pc.1 == path).map Prod.snd

/-- Oracles for the effects of `RunningKernel::new`: the OS answers to the
port binds, the value of `uuid::Uuid::new_v4()` drawn for this launch, the
spawn result (child pid, or the OS error) and the results of opening the
three socket connections. -/
structure LaunchOracles where
  binds : Nat → Except String Nat
  freshKey : String
  spawnResult : Except String Nat
  iopubConn : Except String Unit
  shellConn : Except String Unit
  controlConn : Except String Unit

/-- `RunningKernel::new` (`runtimes.rs` lines 145-266), up to the effects the
claims observe.  Steps in source order: allocate 5 ports via `peek_ports`;
build the `ConnectionInfo` (transport "tcp", loopback ip, the five ports
bound to stdin/control/hb/shell/iopub in source order, scheme "hmac-sha256",
the fresh uuid key, kernel name `zed-<spec name>`); derive the descriptor
path `<runtime dir>/kernel-zed-<entity id>.json`; atomically write the
descriptor; validate and build the launch command; spawn the process; open
the iopub, shell and control sockets.  Every `?` propagates the error,
leaving the world exactly as it was at that point (in particular, nothing
removes an already written descriptor file).  The returned record starts
with `execution_state: Busy` and `kernel_info: None`. -/
def runningKernelNew (spec : RuntimeSpecification) (entityId : Nat)
    (runtimeDir : String) (o : LaunchOracles) (w : LaunchWorld) :
    Except String RunningKernel × LaunchWorld :=
  match (peekPorts o.binds).1 with
  | .error e => (.error e, w)
  | .ok ports =>
    match ports with
    | [p0, p1, p2, p3, p4] =>
      let connectionInfo : ConnectionInfo :=
        { transport := "tcp"
          ip := "127.0.0.1"
          stdin_port := p0
          control_port := p1
          hb_port := p2
          shell_port := p3
          iopub_port := p4
          signature_scheme := "hmac-sha256"
          key := o.freshKey
          kernel_name := some ("zed-" ++ spec.name) }
      let connectionPath := runtimeDir ++ "/kernel-zed-" ++ toString entityId ++ ".json"
      let w1 := atomicWrite connectionPath connectionInfo w
      match spec.command connectionPath with
      | .error e => (.error e, w1)
      | .ok _cmd =>
        match o.spawnResult with
        | .error e => (.error ("failed to start the kernel process: " ++ e), w1)
        | .ok pid =>
          let w2 : LaunchWorld := { w1 with spawned := w1.spawned + 1 }
          match o.iopubConn with
          | .error e => (.error e, w2)
          | .ok _ =>
            match o.shellConn with
            | .error e => (.error e, w2)
            | .ok _ =>
              match o.controlConn with
              | .error e => (.error e, w2)
              | .ok _ =>
                (.ok
                  { processId := pid
                    connectionPath := connectionPath
                    executionState := .busy
                    kernelInfo := none }, w2)
    | _ => (.error "peek_ports returned a malformed port list", w)

/-- `Drop for RunningKernel` (`runtimes.rs` lines 269-275): remove the
connection file, ignoring a removal error (`.ok()`); the request channel is
also closed, which is invisible to the world state modelled here. -/
def runningKernelDrop (k : RunningKernel) (w : LaunchWorld) : LaunchWorld :=
  { w with files := w.files.filter fun pc => pc.1 != k.connectionPath }

/-- The filesystem capability used by discovery (`project::Fs`): directory
test, file load and directory listing, where each listing entry may itself be
an error, mirroring `read_dir`'s per-entry results.  Paths are component
lists. -/
structure DiscoveryFs where
  isDir : List String → Bool
  load : List String → Option String
  readDir : List String → Option (List (Except String (List String)))

/-- `read_kernelspec_at` (`runtimes.rs` lines 277-303): take the directory
name from the path, require the path to be a directory, load `kernel.json`
directly inside it and parse it (`serde_json` parsing of the kernelspec
schema is abstracted into the `parse` parameter). -/
def readKernelspecAt (parse : String → Option JupyterKernelspec)
    (fs : DiscoveryFs) (kernelDir : List String) : Except String RuntimeSpecification :=
  match kernelDir.getLast? with
  | none => .error "Invalid kernelspec directory"
  | some kernelName =>
    if fs.isDir kernelDir then
      match fs.load (kernelDir ++ ["kernel.json"]) with
      | none => .error "failed to load kernel.json"
      | some content =>
        match parse content with
        | none => .error "failed to parse kernel.json"
        | some spec => .ok { name := kernelName, path := kernelDir, kernelspec := spec }
    else
      .error "Not a directory"

/-- The `while let` loop of `read_kernels_dir` (`runtimes.rs` lines 310-321):
a per-entry read error is logged and skipped, a non-directory entry is
skipped, a directory whose kernelspec fails to read is skipped, and each
valid kernelspec is pushed in scan order. -/
def readKernelsDirGo (parse : String → Option JupyterKernelspec) (fs : DiscoveryFs) :
    List (Except String (List String)) → List RuntimeSpecification
  | [] => []
  | entry :: rest =>
    match entry with
    | .error _ => readKernelsDirGo parse fs rest
    | .ok p =>
      if fs.isDir p then
        match readKernelspecAt parse fs p with
        | .ok kernelspec => kernelspec :: readKernelsDirGo parse fs rest
        | .error _ => readKernelsDirGo parse fs rest
      else
        readKernelsDirGo parse fs rest

/-- `read_kernels_dir` (`runtimes.rs` lines 306-324): failing to list the
directory itself is an error of this call; otherwise scan the entries. -/
def readKernelsDir (parse : String → Option JupyterKernelspec) (fs : DiscoveryFs)
    (path : List String) : Except String (List RuntimeSpecification) :=
  match fs.readDir path with
  | none => .error "failed to read dir"
  | some entries => .ok (readKernelsDirGo parse fs entries)

/-- `get_runtime_specifications` (`runtimes.rs` lines 326-344): scan
`<data dir>/kernels` for every data dir, keep only the successful scans
(`filter_map(Result::ok)`) and flatten; the whole call always returns
`Ok`. -/
def getRuntimeSpecifications (parse : String → Option JupyterKernelspec) (fs : DiscoveryFs)
    (dataDirs : List (List String)) : Except String (List RuntimeSpecification) :=
  .ok ((dataDirs.map fun dir => readKernelsDir parse fs (dir ++ ["kernels"])).filterMap
    (fun r => match r with | .ok specs => some specs | .error _ => none)).flatten

/-- Spec-side reading of discovery (spec §4.2 and §8): an entry contributes a
specification exactly when the entry itself listed without error, is a
directory with a well-formed name, and its `kernel.json` loads and parses;
everything else contributes nothing. -/
def validSpecOf (parse : String → Option JupyterKernelspec) (fs : DiscoveryFs)
    (entry : Except String (List String)) : Option RuntimeSpecification :=
  match entry with
  | .error _ => none
  | .ok p =>
    if fs.isDir p then
      match p.getLast?, fs.load (p ++ ["kernel.json"]) with
      | some kernelName, some content =>
        match parse content with
        | some spec => some { name := kernelName, path := p, kernelspec := spec }
        | none => none
      | _, _ => none
    else
      none

/-- Spec-side discovery result: per root, the valid entries of
`<root>/kernels` in scan order, a missing root contributing zero results;
all roots flattened into one list. -/
def discoverySpec (parse : String → Option JupyterKernelspec) (fs : DiscoveryFs)
    (dataDirs : List (List String)) : List RuntimeSpecification :=
  (dataDirs.map fun dir =>
    match fs.readDir (dir ++ ["kernels"]) with
    | none => []
    | some entries => entries.filterMap (validSpecOf parse fs)).flatten

/-- A kernel specification as the panel stores it
(`crate::kernels::KernelSpecification`), modelled with the fields
`runtime_panel.rs` reads. -/
structure KernelSpecification where
  name : String
  path : List String
  kernelspec : JupyterKernelspec
deriving DecidableEq, Repr

/-- The panel state `RuntimePanel::run` and `RuntimePanel::kernelspec`
consult: the enabled flag and the discovered specification list. -/
structure RuntimePanel where
  enabled : Bool
  kernel_specifications : List KernelSpecification
deriving DecidableEq, Repr

/-- `RuntimePanel::kernelspec` (`runtime_panel.rs` lines 191-198): the first
stored specification whose language identifier is string-equal to the
requested language name. -/
def RuntimePanel.kernelspec (self : RuntimePanel) (languageName : String) :
    Option KernelSpecification :=
  self.kernel_specifications.find? fun rs => rs.kernelspec.language == languageName

/-- Observable outcome of `RuntimePanel::run`. -/
inductive RunOutcome
  | notEnabled
  | noSnippet
  | executed (entityId : Nat) (code : String) (spec : KernelSpecification)
deriving DecidableEq, Repr

/-- `RuntimePanel::run` (`runtime_panel.rs` lines 200-234): return `Ok` doing
nothing when the panel is disabled or no snippet is available; otherwise
resolve the kernelspec for the snippet's language, returning the
`No kernel found for language` error to the immediate caller when none
matches, else create-or-reuse the editor's session and submit the selected
text for execution. -/
def RuntimePanel.run (self : RuntimePanel) (entityId : Nat)
    (snippet : Option (String × String)) : Except String RunOutcome :=
  if self.enabled then
    match snippet with
    | none => .ok .noSnippet
    | some (selectedText, languageName) =>
      match self.kernelspec languageName with
      | none => .error ("No kernel found for language: " ++ languageName)
      | some ks => .ok (.executed entityId selectedText ks)
  else
    .ok .notEnabled

/-- The kernel's reply behaviour on the two request sockets: for each request
sent on a socket, the reply that socket's next `read` returns. -/
structure WorkerConfig where
  shellReply : JupyterMessage → JupyterMessage
  controlReply : JupyterMessage → JupyterMessage

/-- Joint state of the shell and control workers (`shell_task` and
`control_task`, `runtimes.rs` lines 229-249): each worker's remaining
sub-queue, the request it has sent and whose reply it is awaiting (at most
one, because the loop body awaits the reply before the next `next()`), and
the merged inbound stream of forwarded replies tagged with their channel. -/
structure MuxState where
  shellQueue : List JupyterMessage
  controlQueue : List JupyterMessage
  shellPending : Option JupyterMessage
  controlPending : Option JupyterMessage
  merged : List (Channel × JupyterMessage)
deriving DecidableEq, Repr

/-- One scheduler step of the two workers.  A send step takes the head of
that worker's sub-queue and puts it on the socket; it is only possible while
the worker awaits no reply (single-flight is structural: the loop body of
`shell_task`/`control_task` awaits exactly one reply between consecutive
sends).  A recv step reads the one awaited reply and forwards it into the
merged stream.  The two channels interleave freely. -/
inductive MuxStep (cfg : WorkerConfig) : MuxState → MuxState → Prop
  | shellSend (σ : MuxState) (m : JupyterMessage) (rest : List JupyterMessage)
      (hq : σ.shellQueue = m :: rest) (hp : σ.shellPending = none) :
      MuxStep cfg σ { σ with shellQueue := rest, shellPending := some m }
  | shellRecv (σ : MuxState) (m : JupyterMessage)
      (hp : σ.shellPending = some m) :
      MuxStep cfg σ
        { σ with
          shellPending := none
          merged := σ.merged ++ [(Channel.shell, cfg.shellReply m)] }
  | controlSend (σ : MuxState) (m : JupyterMessage) (rest : List JupyterMessage)
      (hq : σ.controlQueue = m :: rest) (hp : σ.controlPending = none) :
      MuxStep cfg σ { σ with controlQueue := rest, controlPending := some m }
  | controlRecv (σ : MuxState) (m : JupyterMessage)
      (hp : σ.controlPending = some m) :
      MuxStep cfg σ
        { σ with
          controlPending := none
          merged := σ.merged ++ [(Channel.control, cfg.controlReply m)] }

/-- Initial worker state: the two routed sub-queues, nothing in flight,
nothing forwarded yet. -/
def muxInit (shellQueue controlQueue : List JupyterMessage) : MuxState :=
  { shellQueue := shellQueue
    controlQueue := controlQueue
    shellPending := none
    controlPending := none
    merged := [] }

/-- Any interleaved execution of the two workers. -/
def MuxReach (cfg : WorkerConfig) : MuxState → MuxState → Prop :=
  Relation.ReflTransGen (MuxStep cfg)

/-- The messages of one channel inside the merged stream, in forwarding
order. -/
def mergedOn (ch : Channel) (σ : MuxState) : List JupyterMessage :=
  σ.merged.filterMap fun cm => if cm.1 = ch then some cm.2 else none

/-- Shell-side invariant of an execution started on sub-queue `qs`: the shell
replies forwarded so far are exactly the replies to the first `n` submitted
requests, in submission order, and the worker is either idle with the rest of
the queue, or awaiting the reply to request `n`. -/
def ShellInv (cfg : WorkerConfig) (qs : List JupyterMessage) (σ : MuxState) : Prop :=
  ∃ n, mergedOn Channel.shell σ = (qs.take n).map cfg.shellReply ∧
    ((σ.shellPending = none ∧ σ.shellQueue = qs.drop n) ∨
     (∃ m, σ.shellPending = some m ∧ qs.drop n = m :: σ.shellQueue))

/-- Control-side invariant, symmetric to `ShellInv`. -/
def ControlInv (cfg : WorkerConfig) (qc : List JupyterMessage) (σ : MuxState) : Prop :=
  ∃ n, mergedOn Channel.control σ = (qc.take n).map cfg.controlReply ∧
    ((σ.controlPending = none ∧ σ.controlQueue = qc.drop n) ∨
     (∃ m, σ.controlPending = some m ∧ qc.drop n = m :: σ.controlQueue))

/-- C2: for every message taken from the request submission queue, routing is
a pure function of the message's content kind only — debug, interrupt and
shutdown requests go to the control sub-queue, every other message goes to
the shell sub-queue — and submission order is preserved within each
sub-queue: the two sub-queues are exactly the order-preserving filters of the
submission queue by classification, and `classify` factors through the
content kind. -/
theorem routing_pure_kind_partition :
    (∀ msgs : List JupyterMessage,
      routingTask msgs =
        (msgs.filter fun m => classify m.content == Channel.control,
         msgs.filter fun m => classify m.content == Channel.shell)) ∧
    (∀ c : JupyterMessageContent, classify c = specClassify (kindOf c)) := by
  constructor
  · intro msgs
    induction msgs with
    | nil => rfl
    | cons m rest ih =>
      simp only [routingTask, List.filter_cons, ih]
      cases hc : classify m.content <;> simp [hc]
  · intro c
    cases c <;> rfl

/-- C7: `set_execution_state` and `set_kernel_info` overwrite the execution
sub-status resp. the cached kernel-info reply when the kernel is `Running`,
and leave the kernel value unchanged in every other state (`Starting`,
`ErroredLaunch`, `ShuttingDown`, `Shutdown`); in particular `Shutdown` is
absorbing for status updates. -/
theorem kernel_updates_only_when_running :
    (∀ (k : RunningKernel) (s : ExecutionState),
      Kernel.setExecutionState (.runningKernel k) s =
        .runningKernel { k with executionState := s }) ∧
    (∀ (k : RunningKernel) (i : KernelInfoReply),
      Kernel.setKernelInfo (.runningKernel k) i =
        .runningKernel { k with kernelInfo := some i }) ∧
    (∀ (t : Nat) (s : ExecutionState),
      Kernel.setExecutionState (.startingKernel t) s = .startingKernel t) ∧
    (∀ (m : String) (s : ExecutionState),
      Kernel.setExecutionState (.erroredLaunch m) s = .erroredLaunch m) ∧
    (∀ s : ExecutionState, Kernel.setExecutionState .shuttingDown s = .shuttingDown) ∧
    (∀ s : ExecutionState, Kernel.setExecutionState .shutdown s = .shutdown) ∧
    (∀ (t : Nat) (i : KernelInfoReply),
      Kernel.setKernelInfo (.startingKernel t) i = .startingKernel t) ∧
    (∀ (m : String) (i : KernelInfoReply),
      Kernel.setKernelInfo (.erroredLaunch m) i = .erroredLaunch m) ∧
    (∀ i : KernelInfoReply, Kernel.setKernelInfo .shuttingDown i = .shuttingDown) ∧
    (∀ i : KernelInfoReply, Kernel.setKernelInfo .shutdown i = .shutdown) := by
  refine ⟨?_, ?_, ?_, ?_, ?_, ?_, ?_, ?_, ?_, ?_⟩ <;> intros <;> rfl

/-- C9: resolving a kernel for a language returns a stored specification
whose language identifier is string-exactly the requested name, or `none`
when no specification matches; and when run-selected-code finds no kernel for
the snippet's language, `run` returns the error naming the language to its
immediate caller. -/
theorem kernelspec_exact_match_and_run_error (panel : RuntimePanel) (lang : String) :
    (∀ ks, panel.kernelspec lang = some ks →
      ks ∈ panel.kernel_specifications ∧ ks.kernelspec.language = lang) ∧
    (panel.kernelspec lang = none ↔
      ∀ ks ∈ panel.kernel_specifications, ks.kernelspec.language ≠ lang) ∧
    (∀ (entityId : Nat) (text : String), panel.enabled = true →
      (∀ ks ∈ panel.kernel_specifications, ks.kernelspec.language ≠ lang) →
      panel.run entityId (some (text, lang)) =
        .error ("No kernel found for language: " ++ lang)) := by
  refine ⟨?_, ?_, ?_⟩
  · intro ks h
    refine ⟨List.mem_of_find?_eq_some h, ?_⟩
    have hp := List.find?_some h
    simpa [beq_iff_eq] using hp
  · unfold RuntimePanel.kernelspec
    rw [List.find?_eq_none]
    constructor
    · intro h ks hks
      simpa [beq_iff_eq] using h ks hks
    · intro h ks hks
      simpa [beq_iff_eq] using h ks hks
  · intro entityId text hen hnone
    have hfind : panel.kernelspec lang = none := by
      unfold RuntimePanel.kernelspec
      rw [List.find?_eq_none]
      intro ks hks
      simpa [beq_iff_eq] using hnone ks hks
    simp [RuntimePanel.run, hen, hfind]

/-- A concrete panel holding one Python kernelspec, used to instantiate the
claim about kernel resolution. -/
def panelW : RuntimePanel :=
  { enabled := true
    kernel_specifications :=
      [{ name := "python"
         path := ["kernels", "python"]
         kernelspec :=
           { argv := ["python3", "-m", "ipykernel_launcher", "-f", "{connection_file}"]
             display_name := "Python 3"
             language := "python"
             env := some [] } }] }

/-- Witness for the kernel-resolution claim: the concrete panel is enabled,
holds no TypeScript kernelspec, and `run` on a TypeScript snippet returns the
error naming the language. -/
theorem kernelspec_exact_match_and_run_error_witness :
    panelW.enabled = true ∧
    (∀ ks ∈ panelW.kernel_specifications, ks.kernelspec.language ≠ "typescript") ∧
    panelW.run 3 (some ("const x = 1", "typescript")) =
      .error ("No kernel found for language: " ++ "typescript") := by
  refine ⟨by decide, by decide, ?_⟩
  exact (kernelspec_exact_match_and_run_error panelW "typescript").2.2 3 "const x = 1"
    (by decide) (by decide)

/-- The scan loop keeps exactly the valid entries: per listing entry, the
code's skip-and-continue behaviour agrees with the spec-side filter. -/
theorem readKernelsDirGo_eq_filterMap (parse : String → Option JupyterKernelspec)
    (fs : DiscoveryFs) (entries : List (Except String (List String))) :
    readKernelsDirGo parse fs entries = entries.filterMap (validSpecOf parse fs) := by
  induction entries with
  | nil => rfl
  | cons entry rest ih =>
    cases entry with
    | error e => simp [readKernelsDirGo, validSpecOf, ih]
    | ok p =>
      by_cases hd : fs.isDir p
      · cases hl : p.getLast? with
        | none =>
          simp [readKernelsDirGo, validSpecOf, readKernelspecAt, hd, hl, ih]
        | some kernelName =>
          cases hload : fs.load (p ++ ["kernel.json"]) with
          | none =>
            simp [readKernelsDirGo, validSpecOf, readKernelspecAt, hd, hl, hload, ih]
          | some content =>
            cases hparse : parse content with
            | none =>
              simp [readKernelsDirGo, validSpecOf, readKernelspecAt, hd, hl, hload, hparse, ih]
            | some spec =>
              simp [readKernelsDirGo, validSpecOf, readKernelspecAt, hd, hl, hload, hparse, ih]
      · simp [readKernelsDirGo, validSpecOf, hd, ih]

/-- C6: for every filesystem and set of discovery roots, discovery returns
exactly the specifications of the valid kernelspec directories — an entry
that fails to list, is not a directory, or whose `kernel.json` is missing or
unparseable is skipped and the scan continues — and a root whose `kernels`
directory cannot be listed contributes zero results; the whole call never
returns an error. -/
theorem discovery_skips_invalid_and_missing_roots
    (parse : String → Option JupyterKernelspec) (fs : DiscoveryFs)
    (dataDirs : List (List String)) :
    getRuntimeSpecifications parse fs dataDirs = .ok (discoverySpec parse fs dataDirs) := by
  unfold getRuntimeSpecifications discoverySpec
  congr 1
  induction dataDirs with
  | nil => rfl
  | cons dir rest ih =>
    simp only [List.map_cons, List.filterMap_cons]
    cases hrd : fs.readDir (dir ++ ["kernels"]) with
    | none => simpa [readKernelsDir, hrd] using ih
    | some entries =>
      simpa [readKernelsDir, hrd, readKernelsDirGo_eq_filterMap] using ih

/-- A kernelspec whose argv names the connection-file placeholder twice. -/
def dupPlaceholderSpec : RuntimeSpecification :=
  { name := "py"
    path := ["kernels", "py"]
    kernelspec :=
      { argv := ["python3", "{connection_file}", "{connection_file}"]
        display_name := "Python 3"
        language := "python"
        env := none } }

/-- C4 counterexample: the claim says validation requires the placeholder
token exactly once, but `command` only checks `argv.iter().any(..)`; an argv
containing the placeholder twice passes validation and both occurrences are
substituted. -/
theorem command_accepts_duplicate_placeholder :
    dupPlaceholderSpec.kernelspec.argv.count connectionFilePlaceholder = 2 ∧
    dupPlaceholderSpec.command "/tmp/conn.json" =
      .ok { program := "python3"
            args := ["/tmp/conn.json", "/tmp/conn.json"]
            env := [] } := by
  exact ⟨by decide, by decide⟩

/-- C4 (amended): building the launch command validates, before any process
is spawned and each as a distinct failure whose message names the offending
kernelspec, that the argv is non-empty, has at least 2 tokens, and contains
the connection-file placeholder token at least once (every occurrence after
the first token is substituted with the descriptor path); an argv missing the
placeholder fails validation and the launch routine then returns that error
with no child process created. -/
theorem command_validation_before_spawn (spec : RuntimeSpecification) (path : String) :
    (spec.kernelspec.argv = [] →
      spec.command path = .error ("Empty argv in kernelspec " ++ spec.name)) ∧
    (spec.kernelspec.argv ≠ [] → spec.kernelspec.argv.length < 2 →
      spec.command path = .error ("Invalid argv in kernelspec " ++ spec.name)) ∧
    (2 ≤ spec.kernelspec.argv.length →
      connectionFilePlaceholder ∉ spec.kernelspec.argv →
      spec.command path =
        .error ("Missing \x27connection_file\x27 in argv in kernelspec " ++ spec.name)) ∧
    (2 ≤ spec.kernelspec.argv.length →
      connectionFilePlaceholder ∈ spec.kernelspec.argv →
      spec.command path = .ok
        { program := spec.kernelspec.argv.headI
          args := spec.kernelspec.argv.tail.map fun arg =>
            if arg == connectionFilePlaceholder then path else arg
          env := spec.kernelspec.env.getD [] }) ∧
    (∀ name : String,
      ("Empty argv in kernelspec " ++ name) ≠ ("Invalid argv in kernelspec " ++ name) ∧
      ("Empty argv in kernelspec " ++ name) ≠
        ("Missing \x27connection_file\x27 in argv in kernelspec " ++ name) ∧
      ("Invalid argv in kernelspec " ++ name) ≠
        ("Missing \x27connection_file\x27 in argv in kernelspec " ++ name)) ∧
    (∀ (entityId : Nat) (runtimeDir : String) (o : LaunchOracles) (w : LaunchWorld) (e : String),
      spec.command (runtimeDir ++ "/kernel-zed-" ++ toString entityId ++ ".json") = .error e →
      (∃ e2, (runningKernelNew spec entityId runtimeDir o w).1 = .error e2) ∧
      (runningKernelNew spec entityId runtimeDir o w).2.spawned = w.spawned) := by
  refine ⟨?_, ?_, ?_, ?_, ?_, ?_⟩
  · intro h
    simp [RuntimeSpecification.command, h]
  · intro hne hlen
    have hemp : spec.kernelspec.argv.isEmpty = false := by
      simpa [List.isEmpty_iff] using hne
    simp [RuntimeSpecification.command, hemp, hlen]
  · intro hlen hnotin
    have hemp : spec.kernelspec.argv.isEmpty = false := by
      have : spec.kernelspec.argv ≠ [] := by
        intro hnil
        rw [hnil] at hlen
        simp at hlen
      simpa [List.isEmpty_iff] using this
    have hany : spec.kernelspec.argv.any (fun arg => arg == connectionFilePlaceholder) = false := by
      simp only [List.any_eq_false]
      intro arg harg
      simp only [beq_iff_eq]
      intro heq
      exact hnotin (heq ▸ harg)
    simp [RuntimeSpecification.command, hemp, hany, Nat.not_lt.mpr hlen]
  · intro hlen hin
    have hemp : spec.kernelspec.argv.isEmpty = false := by
      have : spec.kernelspec.argv ≠ [] := by
        intro hnil
        rw [hnil] at hlen
        simp at hlen
      simpa [List.isEmpty_iff] using this
    have hany : spec.kernelspec.argv.any (fun arg => arg == connectionFilePlaceholder) = true := by
      simp only [List.any_eq_true]
      exact ⟨connectionFilePlaceholder, hin, by simp⟩
    simp [RuntimeSpecification.command, hemp, hany, Nat.not_lt.mpr hlen]
  · intro name
    refine ⟨?_, ?_, ?_⟩ <;>
      · intro h
        have h2 := congrArg String.length h
        rw [String.length_append, String.length_append] at h2
        have h3 := Nat.add_right_cancel h2
        revert h3
        decide
  · intro entityId runtimeDir o w e hcmd
    unfold runningKernelNew
    cases hports : (peekPorts o.binds).1 with
    | error pe => exact ⟨⟨pe, rfl⟩, rfl⟩
    | ok ports =>
      rcases ports with _ | ⟨p0, _ | ⟨p1, _ | ⟨p2, _ | ⟨p3, _ | ⟨p4, _ | ⟨p5, rest⟩⟩⟩⟩⟩⟩
      · exact ⟨⟨_, rfl⟩, rfl⟩
      · exact ⟨⟨_, rfl⟩, rfl⟩
      · exact ⟨⟨_, rfl⟩, rfl⟩
      · exact ⟨⟨_, rfl⟩, rfl⟩
      · exact ⟨⟨_, rfl⟩, rfl⟩
      · simp only [hcmd]
        exact ⟨⟨e, rfl⟩, rfl⟩
      · exact ⟨⟨_, rfl⟩, rfl⟩

/-- A kernelspec whose argv has two tokens but no placeholder. -/
def noPlaceholderSpec : RuntimeSpecification :=
  { name := "nofile"
    path := ["kernels", "nofile"]
    kernelspec :=
      { argv := ["python3", "-m"]
        display_name := "No placeholder"
        language := "python"
        env := none } }

/-- Witness for the command-validation claim: the concrete two-token argv
without the placeholder satisfies the hypotheses and fails validation with
the message naming the kernelspec. -/
theorem command_validation_before_spawn_witness :
    2 ≤ noPlaceholderSpec.kernelspec.argv.length ∧
    connectionFilePlaceholder ∉ noPlaceholderSpec.kernelspec.argv ∧
    noPlaceholderSpec.command "/tmp/c.json" =
      .error ("Missing \x27connection_file\x27 in argv in kernelspec " ++
        noPlaceholderSpec.name) := by
  refine ⟨by decide, by decide, ?_⟩
  exact (command_validation_before_spawn noPlaceholderSpec "/tmp/c.json").2.2.1
    (by decide) (by decide)

/-- Characterization of a successful run of the allocation loop: the OS side
ends exactly as it started (every probe listener was dropped inside its own
iteration), and the returned list is the accumulator followed by the `n`
ports the OS handed out, in bind order. -/
theorem peekPortsGo_ok (binds : Nat → Except String Nat) :
    ∀ (n i : Nat) (os : OsPorts) (acc l : List Nat) (os2 : OsPorts),
      peekPortsGo binds n i os acc = (.ok l, os2) →
      os2 = os ∧ ∃ chosen, l = acc.reverse ++ chosen ∧ chosen.length = n ∧
        ∀ k, k < n → binds (i + k) = .ok (chosen.getD k 0) := by
  intro n
  induction n with
  | zero =>
    intro i os acc l os2 h
    simp only [peekPortsGo, Prod.mk.injEq, Except.ok.injEq] at h
    obtain ⟨hl, hos⟩ := h
    refine ⟨hos.symm, [], by simp [hl.symm], rfl, ?_⟩
    intro k hk
    omega
  | succ n ih =>
    intro i os acc l os2 h
    unfold peekPortsGo at h
    cases hb : binds i with
    | error e => rw [hb] at h; simp at h
    | ok p =>
      rw [hb] at h
      obtain ⟨hos, chosen, hl, hlen, hbinds⟩ :=
        ih (i + 1) { bound := (p :: os.bound).erase p } (p :: acc) l os2 h
      refine ⟨?_, p :: chosen, ?_, by simp [hlen], ?_⟩
      · rw [hos]
        cases os with
        | mk bound => simp [List.erase_cons_head]
      · simpa [List.reverse_cons, List.append_assoc] using hl
      · intro k hk
        cases k with
        | zero => simpa using hb
        | succ k2 =>
          have hrec := hbinds k2 (by omega)
          rw [show i + (k2 + 1) = i + 1 + k2 by omega]
          simpa using hrec

/-- The error of the first failing bind aborts the loop and is returned. -/
theorem peekPortsGo_error (binds : Nat → Except String Nat) :
    ∀ (n i : Nat) (os : OsPorts) (acc : List Nat) (k : Nat) (e : String),
      k < n → binds (i + k) = .error e → (∀ j, j < k → ∃ p, binds (i + j) = .ok p) →
      (peekPortsGo binds n i os acc).1 = .error e := by
  intro n
  induction n with
  | zero =>
    intro i os acc k e hk
    omega
  | succ n ih =>
    intro i os acc k e hk herr hok
    unfold peekPortsGo
    cases k with
    | zero =>
      have hb : binds i = .error e := by simpa using herr
      rw [hb]
    | succ k2 =>
      obtain ⟨p, hp⟩ := hok 0 (by omega)
      have hp2 : binds i = .ok p := by simpa using hp
      rw [hp2]
      apply ih (i + 1) { bound := (p :: os.bound).erase p } (p :: acc) k2 e (by omega)
      · rw [show i + 1 + k2 = i + (k2 + 1) by omega]
        exact herr
      · intro j hj
        have hj2 := hok (j + 1) (by omega)
        rw [show i + (j + 1) = i + 1 + j by omega] at hj2
        exact hj2

/-- C5 (amended): on every successful call, port allocation returns the 5
port numbers the OS handed to the 5 probe binds, in bind order, with no
probe listener left open afterward (the OS-visible open set ends empty); any
bind error aborts the whole allocation and propagates to the caller.  Each
port was free at the instant its own listener was bound — an assumption on
the OS oracle — but pairwise distinctness is NOT guaranteed, because each
probe listener is closed before the next bind (see the counterexample). -/
theorem peek_ports_ports_abort_no_listener (binds : Nat → Except String Nat) :
    (∀ (l : List Nat) (os : OsPorts), peekPorts binds = (.ok l, os) →
      l.length = 5 ∧ os.bound = [] ∧ ∀ k, k < 5 → binds k = .ok (l.getD k 0)) ∧
    (∀ (k : Nat) (e : String), k < 5 → binds k = .error e →
      (∀ j, j < k → ∃ p, binds j = .ok p) →
      (peekPorts binds).1 = .error e) := by
  constructor
  · intro l os h
    obtain ⟨hos, chosen, hl, hlen, hbinds⟩ :=
      peekPortsGo_ok binds 5 0 { bound := [] } [] l os h
    have hl2 : l = chosen := by simpa using hl
    subst hl2
    refine ⟨hlen, by rw [hos], ?_⟩
    intro k hk
    have := hbinds k (by omega)
    simpa using this
  · intro k e hk herr hok
    apply peekPortsGo_error binds 5 0 { bound := [] } [] k e hk
    · simpa using herr
    · intro j hj
      simpa using hok j hj

/-- An OS oracle handing out consecutive free ports. -/
def seqBinds : Nat → Except String Nat := fun i => .ok (40000 + i)

/-- Witness for the port-allocation claim: on the consecutive-port oracle the
allocation succeeds and the theorem's conclusions hold at that run. -/
theorem peek_ports_ports_abort_no_listener_witness :
    peekPorts seqBinds = (.ok [40000, 40001, 40002, 40003, 40004], { bound := [] }) ∧
    ([40000, 40001, 40002, 40003, 40004] : List Nat).length = 5 ∧
    (OsPorts.mk []).bound = [] ∧
    (∀ k, k < 5 →
      seqBinds k = .ok (([40000, 40001, 40002, 40003, 40004] : List Nat).getD k 0)) := by
  refine ⟨by decide, ?_⟩
  have h := (peek_ports_ports_abort_no_listener seqBinds).1
    [40000, 40001, 40002, 40003, 40004] { bound := [] } (by decide)
  exact ⟨h.1, h.2.1, h.2.2⟩

/-- An OS oracle that hands out the same port for every probe bind.  This is
a legal OS behaviour for this allocator: each probe listener is dropped at
the end of its own loop iteration, so the port is free again at the instant
of every bind (the allocator's open set, threaded through `peekPortsGo`, is
empty before each bind, and the final state confirms `bound = []`). -/
def constBinds : Nat → Except String Nat := fun _ => .ok 50000

/-- C5 counterexample: a successful allocation that returns five equal port
numbers, refuting the claim that every successful call returns 5
pairwise-distinct ports. -/
theorem peek_ports_can_return_duplicate_ports :
    peekPorts constBinds = (.ok [50000, 50000, 50000, 50000, 50000], { bound := [] }) ∧
    ¬ ([50000, 50000, 50000, 50000, 50000] : List Nat).Nodup := by
  exact ⟨by decide, by decide⟩

/-- No file whose path equals the dropped kernel's connection path survives a
filter on path inequality. -/
theorem find?_filter_ne (path : String) (files : List (String × ConnectionInfo)) :
    (files.filter fun pc => pc.1 != path).find? (fun pc => pc.1 == path) = none := by
  induction files with
  | nil => rfl
  | cons pc rest ih =>
    by_cases h : pc.1 = path
    · simp [List.filter_cons, h, ih]
    · simp [List.filter_cons, h, ih]

/-- Characterization of a successful launch: the ports are the five the OS
handed out, the spawn succeeded, the returned record starts busy with no
kernel info at the derived descriptor path, and the final world holds the
descriptor file and one more spawned process. -/
theorem runningKernelNew_ok (spec : RuntimeSpecification) (entityId : Nat)
    (runtimeDir : String) (o : LaunchOracles) (w : LaunchWorld)
    (k : RunningKernel) (w2 : LaunchWorld)
    (h : runningKernelNew spec entityId runtimeDir o w = (.ok k, w2)) :
    ∃ p0 p1 p2 p3 p4 pid,
      (peekPorts o.binds).1 = .ok [p0, p1, p2, p3, p4] ∧
      o.spawnResult = .ok pid ∧
      k = { processId := pid
            connectionPath := runtimeDir ++ "/kernel-zed-" ++ toString entityId ++ ".json"
            executionState := .busy
            kernelInfo := none } ∧
      w2 = { files := (runtimeDir ++ "/kernel-zed-" ++ toString entityId ++ ".json",
               { transport := "tcp"
                 ip := "127.0.0.1"
                 stdin_port := p0
                 control_port := p1
                 hb_port := p2
                 shell_port := p3
                 iopub_port := p4
                 signature_scheme := "hmac-sha256"
                 key := o.freshKey
                 kernel_name := some ("zed-" ++ spec.name) }) ::
               w.files.filter
                 (fun pc => pc.1 != runtimeDir ++ "/kernel-zed-" ++ toString entityId ++ ".json")
             spawned := w.spawned + 1 } := by
  unfold runningKernelNew at h
  cases hports : (peekPorts o.binds).1 with
  | error e => rw [hports] at h; simp at h
  | ok ports =>
    rw [hports] at h
    rcases ports with _ | ⟨p0, _ | ⟨p1, _ | ⟨p2, _ | ⟨p3, _ | ⟨p4, _ | ⟨p5, rest⟩⟩⟩⟩⟩⟩
    · simp at h
    · simp at h
    · simp at h
    · simp at h
    · simp at h
    · dsimp only at h
      cases hcmd : spec.command (runtimeDir ++ "/kernel-zed-" ++ toString entityId ++ ".json") with
      | error e => rw [hcmd] at h; simp at h
      | ok cmd =>
        rw [hcmd] at h
        dsimp only at h
        cases hspawn : o.spawnResult with
        | error e => rw [hspawn] at h; simp at h
        | ok pid =>
          rw [hspawn] at h
          dsimp only at h
          cases hio : o.iopubConn with
          | error e => rw [hio] at h; simp at h
          | ok u1 =>
            rw [hio] at h
            dsimp only at h
            cases hsh : o.shellConn with
            | error e => rw [hsh] at h; simp at h
            | ok u2 =>
              rw [hsh] at h
              dsimp only at h
              cases hct : o.controlConn with
              | error e => rw [hct] at h; simp at h
              | ok u3 =>
                rw [hct] at h
                simp only [atomicWrite, Prod.mk.injEq, Except.ok.injEq] at h
                obtain ⟨hk, hw⟩ := h
                exact ⟨p0, p1, p2, p3, p4, pid, rfl, rfl, hk.symm, hw.symm⟩
    · simp at h

/-- A kernelspec whose argv is empty (fails the first validation). -/
def emptyArgvSpec : RuntimeSpecification :=
  { name := "badkernel"
    path := ["kernels", "badkernel"]
    kernelspec :=
      { argv := []
        display_name := "Bad"
        language := "python"
        env := none } }

/-- Launch oracles for an otherwise healthy environment. -/
def okOracles : LaunchOracles :=
  { binds := fun i => .ok (40100 + i)
    freshKey := "11111111-2222-3333-4444-555555555555"
    spawnResult := .ok 4242
    iopubConn := .ok ()
    shellConn := .ok ()
    controlConn := .ok () }

/-- C3 (code bug): dropping a `RunningKernel` does remove its descriptor
file; but the launch routine writes the file before command validation,
spawn, and socket connection, and none of those error paths removes it —
launching the empty-argv kernelspec in a healthy environment returns the
validation error with `kernel-zed-7.json` still present in the world, and no
`RunningKernel` value exists whose drop could ever remove it. -/
theorem descriptor_removed_on_drop_but_leaked_on_launch_error :
    (∀ (k : RunningKernel) (w : LaunchWorld),
      lookupFile (runningKernelDrop k w) k.connectionPath = none) ∧
    (runningKernelNew emptyArgvSpec 7 "/run/user/1000" okOracles { files := [], spawned := 0 }).1 =
      .error ("Empty argv in kernelspec " ++ "badkernel") ∧
    lookupFile
      (runningKernelNew emptyArgvSpec 7 "/run/user/1000" okOracles
        { files := [], spawned := 0 }).2
      ("/run/user/1000" ++ "/kernel-zed-" ++ toString 7 ++ ".json") ≠ none := by
  refine ⟨?_, by decide, by decide⟩
  intro k w
  unfold lookupFile runningKernelDrop
  rw [find?_filter_ne]
  rfl

/-- A well-formed kernelspec whose argv carries the placeholder. -/
def goodSpec : RuntimeSpecification :=
  { name := "python"
    path := ["kernels", "python"]
    kernelspec :=
      { argv := ["python3", "-m", "ipykernel_launcher", "-f", "{connection_file}"]
        display_name := "Python 3"
        language := "python"
        env := some [] } }

/-- C8: every successful launch persists, with the atomic write capability at
the deterministic path `<runtime dir>/kernel-zed-<entity id>.json` derived
from the caller-supplied identity, a descriptor with transport "tcp", the
loopback IP, signature scheme "hmac-sha256", the five allocated ports
assigned in order to the stdin, control, heartbeat, shell and iopub fields,
and exactly the key freshly drawn for this launch — so two launches whose
fresh draws differ persist distinct keys. -/
theorem connection_descriptor_contents (spec : RuntimeSpecification) (entityId : Nat)
    (runtimeDir : String) (o : LaunchOracles) (w : LaunchWorld)
    (k : RunningKernel) (w2 : LaunchWorld)
    (h : runningKernelNew spec entityId runtimeDir o w = (.ok k, w2)) :
    ∃ p0 p1 p2 p3 p4,
      (peekPorts o.binds).1 = .ok [p0, p1, p2, p3, p4] ∧
      k.connectionPath = runtimeDir ++ "/kernel-zed-" ++ toString entityId ++ ".json" ∧
      lookupFile w2 k.connectionPath = some
        { transport := "tcp"
          ip := "127.0.0.1"
          stdin_port := p0
          control_port := p1
          hb_port := p2
          shell_port := p3
          iopub_port := p4
          signature_scheme := "hmac-sha256"
          key := o.freshKey
          kernel_name := some ("zed-" ++ spec.name) } ∧
      (lookupFile w2 k.connectionPath).map ConnectionInfo.key = some o.freshKey ∧
      (∀ (spec2 : RuntimeSpecification) (eid2 : Nat) (rd2 : String) (o2 : LaunchOracles)
         (wa : LaunchWorld) (k2 : RunningKernel) (wb : LaunchWorld),
        runningKernelNew spec2 eid2 rd2 o2 wa = (.ok k2, wb) →
        o2.freshKey ≠ o.freshKey →
        (lookupFile wb k2.connectionPath).map ConnectionInfo.key ≠
          (lookupFile w2 k.connectionPath).map ConnectionInfo.key) := by
  obtain ⟨p0, p1, p2, p3, p4, pid, hports, hspawn, hk, hw⟩ :=
    runningKernelNew_ok spec entityId runtimeDir o w k w2 h
  have hpath : k.connectionPath = runtimeDir ++ "/kernel-zed-" ++ toString entityId ++ ".json" := by
    rw [hk]
  have hlook : lookupFile w2 k.connectionPath = some
      { transport := "tcp"
        ip := "127.0.0.1"
        stdin_port := p0
        control_port := p1
        hb_port := p2
        shell_port := p3
        iopub_port := p4
        signature_scheme := "hmac-sha256"
        key := o.freshKey
        kernel_name := some ("zed-" ++ spec.name) } := by
    rw [hw, hpath]
    simp [lookupFile, List.find?]
  have hlookkey : (lookupFile w2 k.connectionPath).map ConnectionInfo.key =
      some o.freshKey := by
    rw [hlook]
    rfl
  refine ⟨p0, p1, p2, p3, p4, hports, hpath, hlook, hlookkey, ?_⟩
  intro spec2 eid2 rd2 o2 wa k2 wb h2 hne
  obtain ⟨q0, q1, q2, q3, q4, pid2, hports2, hspawn2, hk2, hw2⟩ :=
    runningKernelNew_ok spec2 eid2 rd2 o2 wa k2 wb h2
  have hpath2 : k2.connectionPath = rd2 ++ "/kernel-zed-" ++ toString eid2 ++ ".json" := by
    rw [hk2]
  have hlook2 : (lookupFile wb k2.connectionPath).map ConnectionInfo.key = some o2.freshKey := by
    rw [hw2, hpath2]
    simp [lookupFile, List.find?]
  rw [hlook2, hlookkey]
  intro hcontra
  exact hne (Option.some.inj hcontra)

/-- The kernel record produced by the concrete successful launch used as
witness for the descriptor-contents claim. -/
def kW9 : RunningKernel :=
  { processId := 4242
    connectionPath := "/rt/kernel-zed-9.json"
    executionState := .busy
    kernelInfo := none }

/-- The descriptor persisted by that concrete launch. -/
def ciW9 : ConnectionInfo :=
  { transport := "tcp"
    ip := "127.0.0.1"
    stdin_port := 40100
    control_port := 40101
    hb_port := 40102
    shell_port := 40103
    iopub_port := 40104
    signature_scheme := "hmac-sha256"
    key := "11111111-2222-3333-4444-555555555555"
    kernel_name := some ("zed-" ++ "python") }

/-- The world after that concrete launch. -/
def wW9 : LaunchWorld :=
  { files := [("/rt/kernel-zed-9.json", ciW9)]
    spawned := 1 }

/-- Witness for the descriptor-contents claim: a concrete successful launch
of the Python kernelspec, with the resulting kernel record and world computed
explicitly, satisfies the hypothesis, and the claim theorem applies to it. -/
theorem connection_descriptor_contents_witness :
    runningKernelNew goodSpec 9 "/rt" okOracles { files := [], spawned := 0 } =
      (.ok kW9, wW9) ∧
    (∃ p0 p1 p2 p3 p4,
      (peekPorts okOracles.binds).1 = .ok [p0, p1, p2, p3, p4] ∧
      kW9.connectionPath = "/rt" ++ "/kernel-zed-" ++ toString 9 ++ ".json" ∧
      lookupFile wW9 kW9.connectionPath = some
        { transport := "tcp"
          ip := "127.0.0.1"
          stdin_port := p0
          control_port := p1
          hb_port := p2
          shell_port := p3
          iopub_port := p4
          signature_scheme := "hmac-sha256"
          key := okOracles.freshKey
          kernel_name := some ("zed-" ++ goodSpec.name) } ∧
      (lookupFile wW9 kW9.connectionPath).map ConnectionInfo.key = some okOracles.freshKey ∧
      (∀ (spec2 : RuntimeSpecification) (eid2 : Nat) (rd2 : String) (o2 : LaunchOracles)
         (wa : LaunchWorld) (k2 : RunningKernel) (wb : LaunchWorld),
        runningKernelNew spec2 eid2 rd2 o2 wa = (.ok k2, wb) →
        o2.freshKey ≠ okOracles.freshKey →
        (lookupFile wb k2.connectionPath).map ConnectionInfo.key ≠
          (lookupFile wW9 kW9.connectionPath).map ConnectionInfo.key)) := by
  refine ⟨by decide, ?_⟩
  exact connection_descriptor_contents goodSpec 9 "/rt" okOracles
    { files := [], spawned := 0 } kW9 wW9 (by decide)


/-- C10: every successfully launched kernel starts with execution status
`Busy` and with no cached kernel-info reply. -/
theorem running_kernel_starts_busy_no_info (spec : RuntimeSpecification) (entityId : Nat)
    (runtimeDir : String) (o : LaunchOracles) (w : LaunchWorld)
    (k : RunningKernel) (w2 : LaunchWorld)
    (h : runningKernelNew spec entityId runtimeDir o w = (.ok k, w2)) :
    k.executionState = ExecutionState.busy ∧ k.kernelInfo = none := by
  obtain ⟨p0, p1, p2, p3, p4, pid, hports, hspawn, hk, hw⟩ :=
    runningKernelNew_ok spec entityId runtimeDir o w k w2 h
  rw [hk]
  exact ⟨rfl, rfl⟩

/-- The kernel record produced by a second concrete successful launch, used
as witness for the initial-state claim. -/
def kW11 : RunningKernel :=
  { processId := 4242
    connectionPath := "/xdg/kernel-zed-11.json"
    executionState := .busy
    kernelInfo := none }

/-- The world after that second concrete launch. -/
def wW11 : LaunchWorld :=
  { files := [("/xdg/kernel-zed-11.json",
      { transport := "tcp"
        ip := "127.0.0.1"
        stdin_port := 40100
        control_port := 40101
        hb_port := 40102
        shell_port := 40103
        iopub_port := 40104
        signature_scheme := "hmac-sha256"
        key := "11111111-2222-3333-4444-555555555555"
        kernel_name := some ("zed-" ++ "python") })]
    spawned := 1 }

/-- Witness for the initial-state claim: the concrete successful launch above
starts busy without kernel info. -/
theorem running_kernel_starts_busy_no_info_witness :
    runningKernelNew goodSpec 11 "/xdg" okOracles { files := [], spawned := 0 } =
      (.ok kW11, wW11) ∧
    kW11.executionState = ExecutionState.busy ∧ kW11.kernelInfo = none := by
  refine ⟨by decide, ?_⟩
  exact running_kernel_starts_busy_no_info goodSpec 11 "/xdg" okOracles
    { files := [], spawned := 0 } kW11 wW11 (by decide)

/-- Invariant preservation: every state reachable from the initial worker
state satisfies both per-channel FIFO invariants. -/
theorem mux_invariant (cfg : WorkerConfig) (qs qc : List JupyterMessage)
    (σ : MuxState) (h : MuxReach cfg (muxInit qs qc) σ) :
    ShellInv cfg qs σ ∧ ControlInv cfg qc σ := by
  induction h with
  | refl =>
    constructor
    · exact ⟨0, by simp [mergedOn, muxInit], Or.inl ⟨rfl, rfl⟩⟩
    · exact ⟨0, by simp [mergedOn, muxInit], Or.inl ⟨rfl, rfl⟩⟩
  | tail hreach hstep ih =>
    obtain ⟨hs, hc⟩ := ih
    cases hstep with
    | shellSend m rest hq hp =>
      rename_i b
      constructor
      · obtain ⟨n, hm, hcase⟩ := hs
        rcases hcase with ⟨hpn, hqn⟩ | ⟨m2, hps, hdrop⟩
        · refine ⟨n, hm, Or.inr ⟨m, rfl, ?_⟩⟩
          show qs.drop n = m :: rest
          rw [← hqn]
          exact hq
        · rw [hps] at hp
          exact absurd hp (by simp)
      · obtain ⟨n, hm, hcase⟩ := hc
        exact ⟨n, hm, hcase⟩
    | shellRecv m hp =>
      rename_i b
      constructor
      · obtain ⟨n, hm, hcase⟩ := hs
        rcases hcase with ⟨hpn, hqn⟩ | ⟨m2, hps, hdrop⟩
        · rw [hpn] at hp
          exact absurd hp (by simp)
        · rw [hps] at hp
          have hm2 : m2 = m := by injection hp
          subst hm2
          have hget : qs[n]? = some m2 := by
            have hcongr := congrArg (fun l : List JupyterMessage => l[0]?) hdrop
            simpa [List.getElem?_drop] using hcongr
          have hdropsucc : qs.drop (n + 1) = b.shellQueue := by
            rw [← List.tail_drop, hdrop]
            rfl
          refine ⟨n + 1, ?_, Or.inl ⟨rfl, hdropsucc.symm⟩⟩
          have hmm : List.filterMap
              (fun cm => if cm.1 = Channel.shell then some cm.2 else none) b.merged =
              List.map cfg.shellReply (List.take n qs) := hm
          show List.filterMap
              (fun cm => if cm.1 = Channel.shell then some cm.2 else none)
              (b.merged ++ [(Channel.shell, cfg.shellReply m2)]) =
              List.map cfg.shellReply (List.take (n + 1) qs)
          rw [List.filterMap_append, hmm, List.take_succ, hget]
          simp
      · obtain ⟨n, hm, hcase⟩ := hc
        refine ⟨n, ?_, hcase⟩
        have hmm : List.filterMap
            (fun cm => if cm.1 = Channel.control then some cm.2 else none) b.merged =
            List.map cfg.controlReply (List.take n qc) := hm
        show List.filterMap
            (fun cm => if cm.1 = Channel.control then some cm.2 else none)
            (b.merged ++ [(Channel.shell, cfg.shellReply m)]) =
            List.map cfg.controlReply (List.take n qc)
        rw [List.filterMap_append, hmm]
        simp
    | controlSend m rest hq hp =>
      rename_i b
      constructor
      · obtain ⟨n, hm, hcase⟩ := hs
        exact ⟨n, hm, hcase⟩
      · obtain ⟨n, hm, hcase⟩ := hc
        rcases hcase with ⟨hpn, hqn⟩ | ⟨m2, hps, hdrop⟩
        · refine ⟨n, hm, Or.inr ⟨m, rfl, ?_⟩⟩
          show qc.drop n = m :: rest
          rw [← hqn]
          exact hq
        · rw [hps] at hp
          exact absurd hp (by simp)
    | controlRecv m hp =>
      rename_i b
      constructor
      · obtain ⟨n, hm, hcase⟩ := hs
        refine ⟨n, ?_, hcase⟩
        have hmm : List.filterMap
            (fun cm => if cm.1 = Channel.shell then some cm.2 else none) b.merged =
            List.map cfg.shellReply (List.take n qs) := hm
        show List.filterMap
            (fun cm => if cm.1 = Channel.shell then some cm.2 else none)
            (b.merged ++ [(Channel.control, cfg.controlReply m)]) =
            List.map cfg.shellReply (List.take n qs)
        rw [List.filterMap_append, hmm]
        simp
      · obtain ⟨n, hm, hcase⟩ := hc
        rcases hcase with ⟨hpn, hqn⟩ | ⟨m2, hps, hdrop⟩
        · rw [hpn] at hp
          exact absurd hp (by simp)
        · rw [hps] at hp
          have hm2 : m2 = m := by injection hp
          subst hm2
          have hget : qc[n]? = some m2 := by
            have hcongr := congrArg (fun l : List JupyterMessage => l[0]?) hdrop
            simpa [List.getElem?_drop] using hcongr
          have hdropsucc : qc.drop (n + 1) = b.controlQueue := by
            rw [← List.tail_drop, hdrop]
            rfl
          refine ⟨n + 1, ?_, Or.inl ⟨rfl, hdropsucc.symm⟩⟩
          have hmm : List.filterMap
              (fun cm => if cm.1 = Channel.control then some cm.2 else none) b.merged =
              List.map cfg.controlReply (List.take n qc) := hm
          show List.filterMap
              (fun cm => if cm.1 = Channel.control then some cm.2 else none)
              (b.merged ++ [(Channel.control, cfg.controlReply m2)]) =
              List.map cfg.controlReply (List.take (n + 1) qc)
          rw [List.filterMap_append, hmm, List.take_succ, hget]
          simp


/-- C1: in every reachable state of the two workers, each channel's replies
appear in the merged inbound stream in exactly the order the requests were
submitted to that channel — the forwarded shell (resp. control) replies are
the replies to a prefix of the shell (resp. control) sub-queue, and the
worker is awaiting at most the one reply to the next request (strict FIFO,
single-flight) — while across channels there is no ordering guarantee: from
any one-request-per-channel start there is an interleaving in which the
control request completes while the shell request is still awaiting its
reply. -/
theorem channel_workers_fifo_single_flight (cfg : WorkerConfig)
    (qs qc : List JupyterMessage) (σ : MuxState)
    (h : MuxReach cfg (muxInit qs qc) σ) :
    ShellInv cfg qs σ ∧ ControlInv cfg qc σ ∧
    (∀ e i : JupyterMessage, ∃ τ : MuxState,
      MuxReach cfg (muxInit [e] [i]) τ ∧
      τ.shellPending = some e ∧
      mergedOn Channel.control τ = [cfg.controlReply i] ∧
      mergedOn Channel.shell τ = []) := by
  refine ⟨(mux_invariant cfg qs qc σ h).1, (mux_invariant cfg qs qc σ h).2, ?_⟩
  intro e i
  refine ⟨{ shellQueue := []
            controlQueue := []
            shellPending := some e
            controlPending := none
            merged := [(Channel.control, cfg.controlReply i)] }, ?_, rfl, ?_, ?_⟩
  · have s1 : MuxStep cfg (muxInit [e] [i])
        { shellQueue := []
          controlQueue := [i]
          shellPending := some e
          controlPending := none
          merged := [] } :=
      MuxStep.shellSend (muxInit [e] [i]) e [] rfl rfl
    have s2 : MuxStep cfg
        { shellQueue := []
          controlQueue := [i]
          shellPending := some e
          controlPending := none
          merged := [] }
        { shellQueue := []
          controlQueue := []
          shellPending := some e
          controlPending := some i
          merged := [] } :=
      MuxStep.controlSend _ i [] rfl rfl
    have s3 : MuxStep cfg
        { shellQueue := []
          controlQueue := []
          shellPending := some e
          controlPending := some i
          merged := [] }
        { shellQueue := []
          controlQueue := []
          shellPending := some e
          controlPending := none
          merged := [(Channel.control, cfg.controlReply i)] } :=
      MuxStep.controlRecv _ i rfl
    exact Relation.ReflTransGen.tail
      (Relation.ReflTransGen.tail (Relation.ReflTransGen.tail Relation.ReflTransGen.refl s1) s2)
      s3
  · simp [mergedOn]
  · simp [mergedOn]

/-- A concrete reply behaviour: replies echo the request content under a
fresh message id. -/
def cfgW : WorkerConfig :=
  { shellReply := fun m => { msgId := m.msgId + 100, content := m.content }
    controlReply := fun m => { msgId := m.msgId + 200, content := m.content } }

/-- A concrete shell request. -/
def msgExec : JupyterMessage := { msgId := 1, content := .executeRequest "1 + 1" }

/-- A concrete control request. -/
def msgInt : JupyterMessage := { msgId := 2, content := .interruptRequest }

/-- The worker state after the full send-recv round of both one-element
sub-queues. -/
def muxFinalW : MuxState :=
  { shellQueue := []
    controlQueue := []
    shellPending := none
    controlPending := none
    merged := [(Channel.shell, cfgW.shellReply msgExec),
               (Channel.control, cfgW.controlReply msgInt)] }

/-- Witness for the worker-FIFO claim: a concrete four-step execution of one
shell and one control request reaches `muxFinalW`, and the claim theorem
applies to that reachable state. -/
theorem channel_workers_fifo_single_flight_witness :
    MuxReach cfgW (muxInit [msgExec] [msgInt]) muxFinalW ∧
    (ShellInv cfgW [msgExec] muxFinalW ∧ ControlInv cfgW [msgInt] muxFinalW ∧
      (∀ e i : JupyterMessage, ∃ τ : MuxState,
        MuxReach cfgW (muxInit [e] [i]) τ ∧
        τ.shellPending = some e ∧
        mergedOn Channel.control τ = [cfgW.controlReply i] ∧
        mergedOn Channel.shell τ = [])) := by
  have s1 : MuxStep cfgW (muxInit [msgExec] [msgInt])
      { shellQueue := []
        controlQueue := [msgInt]
        shellPending := some msgExec
        controlPending := none
        merged := [] } :=
    MuxStep.shellSend (muxInit [msgExec] [msgInt]) msgExec [] rfl rfl
  have s2 : MuxStep cfgW
      { shellQueue := []
        controlQueue := [msgInt]
        shellPending := some msgExec
        controlPending := none
        merged := [] }
      { shellQueue := []
        controlQueue := [msgInt]
        shellPending := none
        controlPending := none
        merged := [(Channel.shell, cfgW.shellReply msgExec)] } :=
    MuxStep.shellRecv _ msgExec rfl
  have s3 : MuxStep cfgW
      { shellQueue := []
        controlQueue := [msgInt]
        shellPending := none
        controlPending := none
        merged := [(Channel.shell, cfgW.shellReply msgExec)] }
      { shellQueue := []
        controlQueue := []
        shellPending := none
        controlPending := some msgInt
        merged := [(Channel.shell, cfgW.shellReply msgExec)] } :=
    MuxStep.controlSend _ msgInt [] rfl rfl
  have s4 : MuxStep cfgW
      { shellQueue := []
        controlQueue := []
        shellPending := none
        controlPending := some msgInt
        merged := [(Channel.shell, cfgW.shellReply msgExec)] }
      muxFinalW :=
    MuxStep.controlRecv _ msgInt rfl
  have hreach : MuxReach cfgW (muxInit [msgExec] [msgInt]) muxFinalW :=
    Relation.ReflTransGen.tail
      (Relation.ReflTransGen.tail
        (Relation.ReflTransGen.tail
          (Relation.ReflTransGen.tail Relation.ReflTransGen.refl s1) s2) s3) s4
  exact ⟨hreach,
    channel_workers_fifo_single_flight cfgW [msgExec] [msgInt] muxFinalW hreach⟩

end ZedRepl
